import Mathlib

/-!
Verification development for the connection-lifecycle and state-synchronization
coordinator of the aritech-ha integration
(custom_components/aritech_ats/coordinator.py, plus the arm handlers of
custom_components/aritech_ats/alarm_control_panel.py).

The Python class AritechCoordinator is shallowly embedded as a pure state type
CoordState together with one Lean function per Python method.  External
collaborators (the protocol client, the monitor, the event loop) are modelled by
explicit outcome parameters: a Bool saying whether an external call succeeds,
and an explicit task-status field mirroring asyncio task semantics (a task is
`done` only once its coroutine body has returned; while the body is still
executing — including inside its own exception handler — the task is not done).

Python dictionaries are modelled as association lists where assignment prepends
a binding and lookup returns the most recent binding, which is observationally
equivalent to dict assignment/lookup for the operations the source uses.
-/

/-- A state payload (`dict[str, Any]` in the source, a set of named flags per
the data model).  The coordinator stores and returns these wholesale and never
inspects them, so a list of named boolean flags is a faithful carrier. -/
abbrev Rec := List (String × Bool)

/-- The aritech_client ChangeEvent: entity id, name, optional previous payload,
new payload (fields event.id, event.name, event.old_data, event.new_data). -/
structure ChangeEvent where
  id : Nat
  name : String
  old_data : Option Rec
  new_data : Rec
deriving DecidableEq

/-- A registered callback function object.  `id` is the identity of the Python
function object (list.remove and `in` compare by equality, which for function
objects is identity); `raises` says whether invoking it raises an exception. -/
structure Listener where
  id : Nat
  raises : Bool
deriving DecidableEq

/-- Status of an asyncio task: `running` from creation until its coroutine body
returns (this includes the backoff sleep and the body's own exception handler);
`done` afterwards.  `task.done()` is true exactly in the `done` status. -/
inductive TaskStatus where
  | running
  | done
deriving DecidableEq

/-- An invocation of the external AritechClient made by a command method. -/
inductive ClientCall where
  | arm_area (n : Nat) (set_type : String) (force : Bool)
  | disarm_area (n : Nat)
  | inhibit_zone (n : Nat)
  | uninhibit_zone (n : Nat)
  | activate_output (n : Nat)
  | deactivate_output (n : Nat)
  | activate_trigger (n : Nat)
  | deactivate_trigger (n : Nat)
deriving DecidableEq

/-- Failure of a command method: `notConnected` models
`raise UpdateFailed("Not connected to panel")`; `clientError` models an
exception from the external client call, logged and re-raised verbatim. -/
inductive CmdError where
  | notConnected
  | clientError
deriving DecidableEq

/-- The four monitored entity kinds. -/
inductive Kind where
  | area
  | zone
  | output
  | trigger
deriving DecidableEq

/-- Lookup in a Python dict modelled as an association list: the most recent
binding wins (`d.get(k)` / `d[k]` / `k in d`). -/
def dictGet {α : Type} : List (Nat × α) → Nat → Option α
  | [], _ => none
  | (k, v) :: rest, k0 => if k = k0 then some v else dictGet rest k0

/-- Assignment `d[k] = v` on a Python dict modelled as an association list:
prepend the binding, so lookups see the newest value. -/
def dictSet {α : Type} (m : List (Nat × α)) (k : Nat) (v : α) : List (Nat × α) :=
  (k, v) :: m

/-- State of an AritechCoordinator instance: the fields set in __init__
(coordinator.py lines 55-82).  `client` and `monitor` record presence of the
external handles; `scheduled_delays` is a history variable recording the delay
of every reconnection attempt actually scheduled, for observation only. -/
structure CoordState where
  client : Option Unit := none
  monitor : Option Unit := none
  connected : Bool := false
  reconnect_task : Option TaskStatus := none
  reconnect_attempt : Nat := 0
  area_states : List (Nat × Rec) := []
  zone_states : List (Nat × Rec) := []
  output_states : List (Nat × Rec) := []
  trigger_states : List (Nat × Rec) := []
  area_callbacks : List (Nat × List Listener) := []
  zone_callbacks : List (Nat × List Listener) := []
  output_callbacks : List (Nat × List Listener) := []
  trigger_callbacks : List (Nat × List Listener) := []
  force_arm : List (Nat × Bool) := []
  scheduled_delays : List Nat := []
deriving DecidableEq

/-- The state right after __init__. -/
def initState : CoordState := {}

/-- self._reconnect_delays = [5, 10, 20, 40, 60, 120] (line 72); set in
__init__ and never mutated. -/
def reconnect_delays : List Nat := [5, 10, 20, 40, 60, 120]

/-- self._max_reconnect_attempts = 20 (line 73). -/
def max_reconnect_attempts : Nat := 20

/-- The `connected` property (lines 89-92), called is_connected() in the spec's
exposed interface. -/
def is_connected (s : CoordState) : Bool := s.connected

/-- set_force_arm (lines 409-411): self._force_arm[area_num] = enabled. -/
def set_force_arm (s : CoordState) (area_num : Nat) (enabled : Bool) : CoordState :=
  { s with force_arm := dictSet s.force_arm area_num enabled }

/-- get_force_arm (lines 413-415): self._force_arm.get(area_num, False). -/
def get_force_arm (s : CoordState) (area_num : Nat) : Bool :=
  (dictGet s.force_arm area_num).getD false

/-- Python list.remove(y): delete the first occurrence of y, raise ValueError
(modelled as Except.error) when y is not present. -/
def listRemove {α : Type} [DecidableEq α] : List α → α → Except Unit (List α)
  | [], _ => Except.error ()
  | x :: xs, y =>
    if x = y then Except.ok xs
    else
      match listRemove xs y with
      | Except.ok r => Except.ok (x :: r)
      | Except.error e => Except.error e

/-- Shared body of the four register_*_callback methods on the registry dict:
`if num not in d: d[num] = []` then `d[num].append(f)`. -/
def registry_register (m : List (Nat × List Listener)) (n : Nat) (f : Listener) :
    List (Nat × List Listener) :=
  dictSet m n ((dictGet m n).getD [] ++ [f])

/-- Shared body of the `unregister` closures returned by the four
register_*_callback methods: `d[num].remove(callback_fn)`.  A KeyError from
`d[num]` or a ValueError from `remove` propagates as an error. -/
def registry_unregister (m : List (Nat × List Listener)) (n : Nat) (f : Listener) :
    Except Unit (List (Nat × List Listener)) :=
  match dictGet m n with
  | none => Except.error ()
  | some fns =>
    match listRemove fns f with
    | Except.ok fns1 => Except.ok (dictSet m n fns1)
    | Except.error e => Except.error e

/-- register_area_callback (lines 305-314), registration part. -/
def register_area_callback (s : CoordState) (area_num : Nat) (callback_fn : Listener) :
    CoordState :=
  { s with area_callbacks := registry_register s.area_callbacks area_num callback_fn }

/-- register_zone_callback (lines 316-325), registration part. -/
def register_zone_callback (s : CoordState) (zone_num : Nat) (callback_fn : Listener) :
    CoordState :=
  { s with zone_callbacks := registry_register s.zone_callbacks zone_num callback_fn }

/-- register_output_callback (lines 327-336), registration part. -/
def register_output_callback (s : CoordState) (output_num : Nat) (callback_fn : Listener) :
    CoordState :=
  { s with output_callbacks := registry_register s.output_callbacks output_num callback_fn }

/-- register_trigger_callback (lines 338-347), registration part. -/
def register_trigger_callback (s : CoordState) (trigger_num : Nat) (callback_fn : Listener) :
    CoordState :=
  { s with trigger_callbacks := registry_register s.trigger_callbacks trigger_num callback_fn }

/-- The unregister closure returned by register_area_callback (lines 311-312). -/
def unregister_area_callback (s : CoordState) (area_num : Nat) (callback_fn : Listener) :
    Except Unit CoordState :=
  match registry_unregister s.area_callbacks area_num callback_fn with
  | Except.ok m => Except.ok { s with area_callbacks := m }
  | Except.error e => Except.error e

/-- The unregister closure returned by register_zone_callback (lines 322-323). -/
def unregister_zone_callback (s : CoordState) (zone_num : Nat) (callback_fn : Listener) :
    Except Unit CoordState :=
  match registry_unregister s.zone_callbacks zone_num callback_fn with
  | Except.ok m => Except.ok { s with zone_callbacks := m }
  | Except.error e => Except.error e

/-- The unregister closure returned by register_output_callback (lines 333-334). -/
def unregister_output_callback (s : CoordState) (output_num : Nat) (callback_fn : Listener) :
    Except Unit CoordState :=
  match registry_unregister s.output_callbacks output_num callback_fn with
  | Except.ok m => Except.ok { s with output_callbacks := m }
  | Except.error e => Except.error e

/-- The unregister closure returned by register_trigger_callback (lines 344-345). -/
def unregister_trigger_callback (s : CoordState) (trigger_num : Nat) (callback_fn : Listener) :
    Except Unit CoordState :=
  match registry_unregister s.trigger_callbacks trigger_num callback_fn with
  | Except.ok m => Except.ok { s with trigger_callbacks := m }
  | Except.error e => Except.error e

/-- Kind-indexed view of the four per-kind callback registries. -/
def kindCallbacks (k : Kind) (s : CoordState) : List (Nat × List Listener) :=
  match k with
  | Kind.area => s.area_callbacks
  | Kind.zone => s.zone_callbacks
  | Kind.output => s.output_callbacks
  | Kind.trigger => s.trigger_callbacks

/-- Kind-indexed dispatch to the four register_*_callback methods. -/
def register_callback (k : Kind) (s : CoordState) (n : Nat) (f : Listener) : CoordState :=
  match k with
  | Kind.area => register_area_callback s n f
  | Kind.zone => register_zone_callback s n f
  | Kind.output => register_output_callback s n f
  | Kind.trigger => register_trigger_callback s n f

/-- Kind-indexed dispatch to the four unregister closures. -/
def unregister_callback (k : Kind) (s : CoordState) (n : Nat) (f : Listener) :
    Except Unit CoordState :=
  match k with
  | Kind.area => unregister_area_callback s n f
  | Kind.zone => unregister_zone_callback s n f
  | Kind.output => unregister_output_callback s n f
  | Kind.trigger => unregister_trigger_callback s n f

/-- The ordered list of listeners currently registered for entity n of kind k
(empty when the registry has no entry for n). -/
def registered (k : Kind) (s : CoordState) (n : Nat) : List Listener :=
  (dictGet (kindCallbacks k s) n).getD []

/-- _notify_callbacks (lines 295-303): for each callback registered for
entity_id, invoke it inside try/except (an exception is caught and logged).
Returns the invocation log: one entry (listener id, succeeded?) per callback
actually invoked, in registration order. -/
def notify_callbacks (callbacks : List (Nat × List Listener)) (entity_id : Nat) :
    List (Nat × Bool) :=
  match dictGet callbacks entity_id with
  | none => []
  | some fns => fns.map (fun f => (f.id, !f.raises))

/-- handle_zone_changed (lines 200-218): store event.new_data wholesale under
event.id, then notify the zone callbacks for event.id.  Returns the new state
and the fan-out invocation log. -/
def handle_zone_changed (s : CoordState) (e : ChangeEvent) :
    CoordState × List (Nat × Bool) :=
  let s1 := { s with zone_states := dictSet s.zone_states e.id e.new_data }
  (s1, notify_callbacks s1.zone_callbacks e.id)

/-- handle_area_changed (lines 220-238): same shape for areas. -/
def handle_area_changed (s : CoordState) (e : ChangeEvent) :
    CoordState × List (Nat × Bool) :=
  let s1 := { s with area_states := dictSet s.area_states e.id e.new_data }
  (s1, notify_callbacks s1.area_callbacks e.id)

/-- handle_output_changed (lines 240-258): same shape for outputs. -/
def handle_output_changed (s : CoordState) (e : ChangeEvent) :
    CoordState × List (Nat × Bool) :=
  let s1 := { s with output_states := dictSet s.output_states e.id e.new_data }
  (s1, notify_callbacks s1.output_callbacks e.id)

/-- handle_trigger_changed (lines 260-278): same shape for triggers. -/
def handle_trigger_changed (s : CoordState) (e : ChangeEvent) :
    CoordState × List (Nat × Bool) :=
  let s1 := { s with trigger_states := dictSet s.trigger_states e.id e.new_data }
  (s1, notify_callbacks s1.trigger_callbacks e.id)

/-- Kind-indexed dispatch to the four change handlers. -/
def handle_changed (k : Kind) (s : CoordState) (e : ChangeEvent) :
    CoordState × List (Nat × Bool) :=
  match k with
  | Kind.area => handle_area_changed s e
  | Kind.zone => handle_zone_changed s e
  | Kind.output => handle_output_changed s e
  | Kind.trigger => handle_trigger_changed s e

/-- The store-commit part of a change handler (the single dict assignment the
handler performs before its fan-out), named so theorems can state that the
final state equals the committed state independently of the fan-out. -/
def commit (k : Kind) (s : CoordState) (e : ChangeEvent) : CoordState :=
  match k with
  | Kind.area => { s with area_states := dictSet s.area_states e.id e.new_data }
  | Kind.zone => { s with zone_states := dictSet s.zone_states e.id e.new_data }
  | Kind.output => { s with output_states := dictSet s.output_states e.id e.new_data }
  | Kind.trigger => { s with trigger_states := dictSet s.trigger_states e.id e.new_data }

/-- get_area_state (lines 513-515): self._data.area_states.get(area_num). -/
def get_area_state (s : CoordState) (area_num : Nat) : Option Rec :=
  dictGet s.area_states area_num

/-- get_zone_state (lines 524-526): self._data.zone_states.get(zone_num). -/
def get_zone_state (s : CoordState) (zone_num : Nat) : Option Rec :=
  dictGet s.zone_states zone_num

/-- get_output_state (lines 535-537): self._data.output_states.get(output_num). -/
def get_output_state (s : CoordState) (output_num : Nat) : Option Rec :=
  dictGet s.output_states output_num

/-- get_trigger_state (lines 546-548): self._data.trigger_states.get(trigger_num). -/
def get_trigger_state (s : CoordState) (trigger_num : Nat) : Option Rec :=
  dictGet s.trigger_states trigger_num

/-- Kind-indexed dispatch to the four per-kind get_*_state accessors. -/
def get_state (k : Kind) (s : CoordState) (n : Nat) : Option Rec :=
  match k with
  | Kind.area => get_area_state s n
  | Kind.zone => get_zone_state s n
  | Kind.output => get_output_state s n
  | Kind.trigger => get_trigger_state s n

/-- Processing a sequence of change events of one kind, in delivery order
(push-event handling is synchronous and non-interleaving, spec section 5). -/
def process_events (k : Kind) (s : CoordState) (es : List ChangeEvent) : CoordState :=
  es.foldl (fun t e => (handle_changed k t e).1) s

/-- async_disconnect (lines 156-167).  The two external teardown calls may
themselves raise (monitor_stop_raises for self._monitor.stop(),
client_disconnect_raises for await self._client.disconnect()); the method has
no try/except, so such an exception propagates to the caller immediately and
the remaining statements do not run.  The error value carries the coordinator
state at the moment the exception escapes. -/
def async_disconnect (monitor_stop_raises client_disconnect_raises : Bool)
    (s : CoordState) : Except CoordState CoordState :=
  let step2 := fun (t : CoordState) =>
    match t.client with
    | some _ =>
      if client_disconnect_raises then Except.error t
      else Except.ok { t with client := none, connected := false }
    | none => Except.ok { t with connected := false }
  match s.monitor with
  | some _ =>
    if monitor_stop_raises then Except.error s
    else step2 { s with monitor := none }
  | none => step2 s

/-- async_connect (lines 109-154), treated as one atomic transition; `ok` is
the combined outcome of the external connect/initialize/monitor-start calls.
The client handle is created (line 114) before any awaited call; on failure the
except branch sets connected = False, runs async_disconnect (whose external
teardown calls follow their contract and do not raise here) and re-raises as
UpdateFailed, so the error value is the state after that teardown. -/
def async_connect (ok : Bool) (s : CoordState) : Except CoordState CoordState :=
  let s1 := { s with client := some () }
  if ok then
    Except.ok { s1 with monitor := some (), connected := true }
  else
    match async_disconnect false false { s1 with connected := false } with
    | Except.ok s2 => Except.error s2
    | Except.error s2 => Except.error s2

/-- _get_reconnect_delay (lines 349-353); self._reconnect_delays[-1] is the
last element of the (nonempty, constant) delay list. -/
def get_reconnect_delay (s : CoordState) : Nat :=
  if s.reconnect_attempt ≥ reconnect_delays.length then
    reconnect_delays.getD (reconnect_delays.length - 1) 0
  else
    reconnect_delays.getD s.reconnect_attempt 0

/-- _schedule_reconnect (lines 355-361, 395), without running the created task:
if a task exists and is not done, return at once (already scheduled); otherwise
resolve the delay from the current attempt counter, increment the counter and
create the reconnect task (recorded as running; its sleep has not elapsed).
The resolved delay is appended to the scheduled_delays history variable. -/
def schedule_reconnect (s : CoordState) : CoordState :=
  if s.reconnect_task = some TaskStatus.running then s
  else
    { s with
      reconnect_attempt := s.reconnect_attempt + 1,
      reconnect_task := some TaskStatus.running,
      scheduled_delays := s.scheduled_delays ++ [get_reconnect_delay s] }

/-- The state after the reconnect body's disconnect step, the first thing it
does once the backoff sleep elapses (line 373); teardown follows the external
contract and does not raise on this path. -/
def reconnect_after_disconnect (s : CoordState) : CoordState :=
  match async_disconnect false false s with
  | Except.ok t => t
  | Except.error t => t

/-- The reconnect() coroutine body (lines 363-393) run to completion once its
backoff sleep elapses; `ok` is the outcome of the inner async_connect.  On
success the attempt counter is reset to 0 (line 380).  On failure the except
branch logs (including the max-attempts notice when the counter has reached
max_reconnect_attempts) and calls _schedule_reconnect (line 393) — at that
point self._reconnect_task is this very task, whose coroutine has not yet
returned, so task.done() is false.  When the body returns, the task becomes
done. -/
def run_reconnect_task (ok : Bool) (s : CoordState) : CoordState :=
  let s1 := reconnect_after_disconnect s
  match async_connect ok s1 with
  | Except.ok s2 =>
    { s2 with reconnect_attempt := 0, reconnect_task := some TaskStatus.done }
  | Except.error s2 =>
    let s3 := schedule_reconnect s2
    { s3 with reconnect_task := some TaskStatus.done }

/-- handle_connection_lost (lines 289-293) and handle_error (lines 280-285):
log, then _schedule_reconnect. -/
def handle_connection_lost (s : CoordState) : CoordState :=
  schedule_reconnect s

/-- The state an Except-valued transition leaves behind whether it returned or
raised (for building the reachability relation). -/
def exceptState (r : Except CoordState CoordState) : CoordState :=
  match r with
  | Except.ok t => t
  | Except.error t => t

/-- async_arm_area (lines 421-430): if self._client is None raise
UpdateFailed("Not connected to panel") without touching the client; otherwise
call self._client.arm_area(area_num, set_type=mode, force=force), whose failure
(client_fails) is logged and re-raised.  The second component is the list of
external client invocations actually made. -/
def async_arm_area (client_fails : Bool) (s : CoordState) (area_num : Nat)
    (mode : String) (force : Bool) : Except CmdError Unit × List ClientCall :=
  match s.client with
  | none => (Except.error CmdError.notConnected, [])
  | some _ =>
    if client_fails then
      (Except.error CmdError.clientError, [ClientCall.arm_area area_num mode force])
    else
      (Except.ok (), [ClientCall.arm_area area_num mode force])

/-- async_disarm_area (lines 432-441): same guard shape. -/
def async_disarm_area (client_fails : Bool) (s : CoordState) (area_num : Nat) :
    Except CmdError Unit × List ClientCall :=
  match s.client with
  | none => (Except.error CmdError.notConnected, [])
  | some _ =>
    if client_fails then
      (Except.error CmdError.clientError, [ClientCall.disarm_area area_num])
    else
      (Except.ok (), [ClientCall.disarm_area area_num])

/-- async_inhibit_zone (lines 443-452): same guard shape. -/
def async_inhibit_zone (client_fails : Bool) (s : CoordState) (zone_num : Nat) :
    Except CmdError Unit × List ClientCall :=
  match s.client with
  | none => (Except.error CmdError.notConnected, [])
  | some _ =>
    if client_fails then
      (Except.error CmdError.clientError, [ClientCall.inhibit_zone zone_num])
    else
      (Except.ok (), [ClientCall.inhibit_zone zone_num])

/-- async_uninhibit_zone (lines 454-463): same guard shape. -/
def async_uninhibit_zone (client_fails : Bool) (s : CoordState) (zone_num : Nat) :
    Except CmdError Unit × List ClientCall :=
  match s.client with
  | none => (Except.error CmdError.notConnected, [])
  | some _ =>
    if client_fails then
      (Except.error CmdError.clientError, [ClientCall.uninhibit_zone zone_num])
    else
      (Except.ok (), [ClientCall.uninhibit_zone zone_num])

/-- async_activate_output (lines 465-474): same guard shape. -/
def async_activate_output (client_fails : Bool) (s : CoordState) (output_num : Nat) :
    Except CmdError Unit × List ClientCall :=
  match s.client with
  | none => (Except.error CmdError.notConnected, [])
  | some _ =>
    if client_fails then
      (Except.error CmdError.clientError, [ClientCall.activate_output output_num])
    else
      (Except.ok (), [ClientCall.activate_output output_num])

/-- async_deactivate_output (lines 476-485): same guard shape. -/
def async_deactivate_output (client_fails : Bool) (s : CoordState) (output_num : Nat) :
    Except CmdError Unit × List ClientCall :=
  match s.client with
  | none => (Except.error CmdError.notConnected, [])
  | some _ =>
    if client_fails then
      (Except.error CmdError.clientError, [ClientCall.deactivate_output output_num])
    else
      (Except.ok (), [ClientCall.deactivate_output output_num])

/-- async_activate_trigger (lines 487-496): same guard shape. -/
def async_activate_trigger (client_fails : Bool) (s : CoordState) (trigger_num : Nat) :
    Except CmdError Unit × List ClientCall :=
  match s.client with
  | none => (Except.error CmdError.notConnected, [])
  | some _ =>
    if client_fails then
      (Except.error CmdError.clientError, [ClientCall.activate_trigger trigger_num])
    else
      (Except.ok (), [ClientCall.activate_trigger trigger_num])

/-- async_deactivate_trigger (lines 498-507): same guard shape. -/
def async_deactivate_trigger (client_fails : Bool) (s : CoordState) (trigger_num : Nat) :
    Except CmdError Unit × List ClientCall :=
  match s.client with
  | none => (Except.error CmdError.notConnected, [])
  | some _ =>
    if client_fails then
      (Except.error CmdError.clientError, [ClientCall.deactivate_trigger trigger_num])
    else
      (Except.ok (), [ClientCall.deactivate_trigger trigger_num])

/-- One of the eight command operations and its arguments. -/
inductive Cmd where
  | arm (n : Nat) (mode : String) (force : Bool)
  | disarm (n : Nat)
  | inhibit (n : Nat)
  | uninhibit (n : Nat)
  | activateOutput (n : Nat)
  | deactivateOutput (n : Nat)
  | activateTrigger (n : Nat)
  | deactivateTrigger (n : Nat)
deriving DecidableEq

/-- Dispatch to the eight coordinator command methods. -/
def run_command (client_fails : Bool) (s : CoordState) (c : Cmd) :
    Except CmdError Unit × List ClientCall :=
  match c with
  | Cmd.arm n mode force => async_arm_area client_fails s n mode force
  | Cmd.disarm n => async_disarm_area client_fails s n
  | Cmd.inhibit n => async_inhibit_zone client_fails s n
  | Cmd.uninhibit n => async_uninhibit_zone client_fails s n
  | Cmd.activateOutput n => async_activate_output client_fails s n
  | Cmd.deactivateOutput n => async_deactivate_output client_fails s n
  | Cmd.activateTrigger n => async_activate_trigger client_fails s n
  | Cmd.deactivateTrigger n => async_deactivate_trigger client_fails s n

/-- async_alarm_arm_away (alarm_control_panel.py lines 194-202): resolve force
from the coordinator's force-arm flag for the area at call time, then arm with
set_type "full". -/
def async_alarm_arm_away (client_fails : Bool) (s : CoordState) (area_number : Nat) :
    Except CmdError Unit × List ClientCall :=
  let force := get_force_arm s area_number
  async_arm_area client_fails s area_number "full" force

/-- async_alarm_arm_home (alarm_control_panel.py lines 204-212): same with
set_type "part1". -/
def async_alarm_arm_home (client_fails : Bool) (s : CoordState) (area_number : Nat) :
    Except CmdError Unit × List ClientCall :=
  let force := get_force_arm s area_number
  async_arm_area client_fails s area_number "part1" force

/-- async_alarm_arm_night (alarm_control_panel.py lines 214-222): same with
set_type "part2". -/
def async_alarm_arm_night (client_fails : Bool) (s : CoordState) (area_number : Nat) :
    Except CmdError Unit × List ClientCall :=
  let force := get_force_arm s area_number
  async_arm_area client_fails s area_number "part2" force

/-- The states of one coordinator instance reachable through its public
operations, with each async method taken as one atomic transition of the
cooperative event loop (spec section 5) and the external teardown calls
following their documented best-effort contract (spec section 6). -/
inductive Reachable : CoordState → Prop where
  | init : Reachable initState
  | connect (ok : Bool) {s : CoordState} :
      Reachable s → Reachable (exceptState (async_connect ok s))
  | disconnect {s : CoordState} :
      Reachable s → Reachable (exceptState (async_disconnect false false s))
  | connection_lost {s : CoordState} :
      Reachable s → Reachable (handle_connection_lost s)
  | run_task (ok : Bool) {s : CoordState} :
      Reachable s → s.reconnect_task = some TaskStatus.running →
      Reachable (run_reconnect_task ok s)
  | change (k : Kind) (e : ChangeEvent) {s : CoordState} :
      Reachable s → Reachable (handle_changed k s e).1
  | register (k : Kind) (n : Nat) (f : Listener) {s : CoordState} :
      Reachable s → Reachable (register_callback k s n f)
  | unregister (k : Kind) (n : Nat) (f : Listener) {s t : CoordState} :
      Reachable s → unregister_callback k s n f = Except.ok t → Reachable t
  | force (n : Nat) (b : Bool) {s : CoordState} :
      Reachable s → Reachable (set_force_arm s n b)

/-- The session handle is present exactly while the connected flag is set. -/
def clientInv (s : CoordState) : Prop :=
  s.client = if s.connected then some () else none

theorem async_disconnect_ok (s : CoordState) :
    async_disconnect false false s
      = Except.ok { s with monitor := none, client := none, connected := false } := by
  cases s with
  | mk client monitor connected task att as zs os ts ac zc oc tc fa sd =>
    cases client <;> cases monitor <;> rfl

theorem unregister_preserves_conn {k : Kind} {s t : CoordState} {n : Nat} {f : Listener}
    (h : unregister_callback k s n f = Except.ok t) :
    t.client = s.client ∧ t.connected = s.connected := by
  cases k <;>
    simp only [unregister_callback, unregister_area_callback, unregister_zone_callback,
      unregister_output_callback, unregister_trigger_callback] at h <;>
    split at h <;> simp_all <;> subst h <;> exact ⟨rfl, rfl⟩

theorem reachable_clientInv {s : CoordState} (h : Reachable s) : clientInv s := by
  induction h with
  | init => rfl
  | connect ok _ ih =>
    cases ok with
    | true => simp [clientInv, async_connect, exceptState]
    | false => simp [clientInv, async_connect, async_disconnect_ok, exceptState]
  | disconnect _ ih => simp [clientInv, async_disconnect_ok, exceptState]
  | connection_lost _ ih =>
    simp only [clientInv, handle_connection_lost, schedule_reconnect]
    split
    · exact ih
    · simpa [clientInv] using ih
  | run_task ok _ hrun ih =>
    cases ok with
    | true =>
      simp [clientInv, run_reconnect_task, reconnect_after_disconnect,
        async_disconnect_ok, async_connect]
    | false =>
      simp [clientInv, run_reconnect_task, reconnect_after_disconnect,
        async_disconnect_ok, async_connect, schedule_reconnect, hrun]
  | change k e _ ih =>
    cases k <;>
      simpa [clientInv, handle_changed, handle_area_changed, handle_zone_changed,
        handle_output_changed, handle_trigger_changed] using ih
  | register k n f _ ih =>
    cases k <;>
      simpa [clientInv, register_callback, register_area_callback, register_zone_callback,
        register_output_callback, register_trigger_callback] using ih
  | unregister k n f _ hok ih =>
    have hpres := unregister_preserves_conn hok
    simp only [clientInv, hpres.1, hpres.2]
    exact ih
  | force n b _ ih => simpa [clientInv, set_force_arm] using ih

theorem notify_callbacks_eq_map (cbs : List (Nat × List Listener)) (n : Nat) :
    notify_callbacks cbs n = ((dictGet cbs n).getD []).map (fun f => (f.id, !f.raises)) := by
  unfold notify_callbacks
  cases dictGet cbs n <;> simp

theorem get_state_handle_changed_self (k : Kind) (s : CoordState) (e : ChangeEvent) :
    get_state k (handle_changed k s e).1 e.id = some e.new_data := by
  cases k <;>
    simp [get_state, handle_changed, handle_area_changed, handle_zone_changed,
      handle_output_changed, handle_trigger_changed, get_area_state, get_zone_state,
      get_output_state, get_trigger_state, dictGet, dictSet]

theorem handle_changed_log (k : Kind) (s : CoordState) (e : ChangeEvent) :
    (handle_changed k s e).2 = (registered k s e.id).map (fun f => (f.id, !f.raises)) := by
  cases k <;>
    simp [handle_changed, handle_area_changed, handle_zone_changed, handle_output_changed,
      handle_trigger_changed, notify_callbacks_eq_map, registered, kindCallbacks]

/-- C2: for every sequence of change events for the same (kind, number), after
processing them the record returned by the per-kind get_state accessor equals
exactly the new-record payload of the most recently processed event: the store
assignment is a wholesale replacement, never a field-by-field merge with any
earlier record. -/
theorem c2_last_event_payload_wins (k : Kind) (s : CoordState)
    (es : List ChangeEvent) (e : ChangeEvent) (hsame : ∀ x ∈ es, x.id = e.id) :
    get_state k (process_events k s (es ++ [e])) e.id = some e.new_data := by
  have hsplit : process_events k s (es ++ [e])
      = (handle_changed k (process_events k s es) e).1 := by
    simp [process_events, List.foldl_append]
  rw [hsplit]
  exact get_state_handle_changed_self k _ e

/-- C2 witness: the spec's concrete scenario, two zone events for zone 3; the
final stored record is the second payload with no residual active flag. -/
theorem c2_last_event_payload_wins_witness :
    get_state Kind.zone
        (process_events Kind.zone initState
          [⟨3, "Zone 3", none, [("active", true)]⟩,
           ⟨3, "Zone 3", some [("active", true)], [("active", false), ("tampered", true)]⟩])
        3
      = some [("active", false), ("tampered", true)] := by
  have h := c2_last_event_payload_wins Kind.zone initState
    [⟨3, "Zone 3", none, [("active", true)]⟩]
    ⟨3, "Zone 3", some [("active", true)], [("active", false), ("tampered", true)]⟩
    (by decide)
  simpa using h

/-- C4: for every change event, the new record is committed to the store before
any listener runs and the final state equals that committed state, so no
listener failure can remove or alter it; the fan-out invokes every registered
listener for the entity in registration order, a raising listener being caught
and logged (logged as a failed invocation) without preventing any
later-registered listener from being invoked. -/
theorem c4_commit_before_fanout (k : Kind) (s : CoordState) (e : ChangeEvent) :
    (handle_changed k s e).1 = commit k s e
    ∧ get_state k (handle_changed k s e).1 e.id = some e.new_data
    ∧ (handle_changed k s e).2 = (registered k s e.id).map (fun f => (f.id, !f.raises))
    ∧ ∀ f ∈ registered k s e.id, (f.id, !f.raises) ∈ (handle_changed k s e).2 := by
  refine ⟨?_, get_state_handle_changed_self k s e, handle_changed_log k s e, ?_⟩
  · cases k <;> rfl
  · intro f hf
    rw [handle_changed_log]
    exact List.mem_map_of_mem _ hf

/-- C4 witness: zone 7 has two listeners, the first of which raises; the second
is still invoked and the committed record is intact. -/
theorem c4_commit_before_fanout_witness :
    (2, true) ∈ (handle_changed Kind.zone
        { initState with zone_callbacks := [(7, [⟨1, true⟩, ⟨2, false⟩])] }
        ⟨7, "Zone 7", none, [("active", true)]⟩).2
    ∧ get_state Kind.zone (handle_changed Kind.zone
        { initState with zone_callbacks := [(7, [⟨1, true⟩, ⟨2, false⟩])] }
        ⟨7, "Zone 7", none, [("active", true)]⟩).1 7
      = some [("active", true)] := by
  have h := c4_commit_before_fanout Kind.zone
    { initState with zone_callbacks := [(7, [⟨1, true⟩, ⟨2, false⟩])] }
    ⟨7, "Zone 7", none, [("active", true)]⟩
  exact ⟨h.2.2.2 ⟨2, false⟩ (by decide), h.2.1⟩

/-- C5: in every reachable state in which is_connected() is false, each of the
eight command operations fails immediately with the not-connected condition and
makes no invocation of the external client (no queueing, no retry). -/
theorem c5_command_requires_connection {s : CoordState} (hr : Reachable s)
    (h : is_connected s = false) (c : Cmd) (client_fails : Bool) :
    run_command client_fails s c = (Except.error CmdError.notConnected, []) := by
  have hinv := reachable_clientInv hr
  rw [is_connected] at h
  rw [clientInv, h] at hinv
  simp only [Bool.false_eq_true, if_false] at hinv
  cases c <;>
    simp [run_command, async_arm_area, async_disarm_area, async_inhibit_zone,
      async_uninhibit_zone, async_activate_output, async_deactivate_output,
      async_activate_trigger, async_deactivate_trigger, hinv]

/-- C5 witness: in the freshly initialized (disconnected) state, an arm command
fails with the not-connected condition and the client is never called. -/
theorem c5_command_requires_connection_witness :
    run_command false initState (Cmd.arm 1 "full" false)
      = (Except.error CmdError.notConnected, []) :=
  c5_command_requires_connection Reachable.init (by rfl) (Cmd.arm 1 "full" false) false

/-- C9: every arm request resolves the force flag forwarded to the external arm
RPC by reading the coordinator's force-arm flag for the target area at call
time; get_force_arm returns false for an area never set and otherwise the value
of the most recent set_force_arm call for that area. -/
theorem c9_force_flag_resolution (client_fails : Bool) (s : CoordState) (a : Nat) :
    (∀ c ∈ (async_alarm_arm_away client_fails s a).2,
        c = ClientCall.arm_area a "full" (get_force_arm s a))
    ∧ (∀ c ∈ (async_alarm_arm_home client_fails s a).2,
        c = ClientCall.arm_area a "part1" (get_force_arm s a))
    ∧ (∀ c ∈ (async_alarm_arm_night client_fails s a).2,
        c = ClientCall.arm_area a "part2" (get_force_arm s a))
    ∧ (dictGet s.force_arm a = none → get_force_arm s a = false)
    ∧ (∀ b, get_force_arm (set_force_arm s a b) a = b)
    ∧ (∀ a2 b, a2 ≠ a → get_force_arm (set_force_arm s a2 b) a = get_force_arm s a) := by
  refine ⟨?_, ?_, ?_, ?_, ?_, ?_⟩
  · intro c hc
    unfold async_alarm_arm_away async_arm_area at hc
    cases h1 : s.client <;> rw [h1] at hc <;> cases client_fails <;> simp_all
  · intro c hc
    unfold async_alarm_arm_home async_arm_area at hc
    cases h1 : s.client <;> rw [h1] at hc <;> cases client_fails <;> simp_all
  · intro c hc
    unfold async_alarm_arm_night async_arm_area at hc
    cases h1 : s.client <;> rw [h1] at hc <;> cases client_fails <;> simp_all
  · intro hnone
    simp [get_force_arm, hnone]
  · intro b
    simp [get_force_arm, set_force_arm, dictGet, dictSet]
  · intro a2 b hne
    simp [get_force_arm, set_force_arm, dictGet, dictSet, hne]

/-- C9 witness: area 2 defaults to non-forced, and after set_force_arm(2, true)
the arm-away request forwards force = true to the external arm RPC. -/
theorem c9_force_flag_resolution_witness :
    get_force_arm initState 2 = false
    ∧ get_force_arm (set_force_arm initState 2 true) 2 = true := by
  refine ⟨(c9_force_flag_resolution false initState 2).2.2.2.1 (by rfl), ?_⟩
  exact (c9_force_flag_resolution false initState 2).2.2.2.2.1 true

/-- A coordinator that has connected successfully: session and monitor handles
present, connected flag set, attempt counter 0, no reconnect task. -/
def connectedState : CoordState :=
  { initState with client := some (), monitor := some (), connected := true }

/-- Three rounds of simulated failure: each round delivers a connection-lost
signal (scheduling an attempt) and then runs the scheduled attempt with a
failing connect. -/
def threeFailTrace : CoordState :=
  run_reconnect_task false (handle_connection_lost
    (run_reconnect_task false (handle_connection_lost
      (run_reconnect_task false (handle_connection_lost connectedState)))))

theorem get_reconnect_delay_eq_min (s : CoordState) :
    get_reconnect_delay s
      = reconnect_delays.getD (min s.reconnect_attempt (reconnect_delays.length - 1)) 0 := by
  unfold get_reconnect_delay
  rcases le_or_lt reconnect_delays.length s.reconnect_attempt with hle | hlt
  · rw [if_pos hle]
    congr 1
    have h1 : reconnect_delays.length - 1 ≤ s.reconnect_attempt := by omega
    rw [Nat.min_eq_right h1]
  · rw [if_neg (by omega)]
    congr 1
    have h0 : 0 < reconnect_delays.length := by decide
    have h1 : s.reconnect_attempt ≤ reconnect_delays.length - 1 := by omega
    rw [Nat.min_eq_left h1]

/-- C1: a scheduled reconnection attempt with attempt index i (the current
attempt counter, 0-based since the last successful connection) uses delay
schedule[min(i, len(schedule)-1)] for schedule = [5, 10, 20, 40, 60, 120], and
scheduling increments the counter by one; any attempt with index at least 6
(the 7th onward) uses delay 120; in the concrete three-failure scenario the
scheduled delays are 5, 10, 20 in order and the attempt counter ends at 3. -/
theorem c1_reconnect_delay_schedule (s : CoordState)
    (h : s.reconnect_task ≠ some TaskStatus.running) :
    ((schedule_reconnect s).scheduled_delays
        = s.scheduled_delays
          ++ [reconnect_delays.getD (min s.reconnect_attempt (reconnect_delays.length - 1)) 0]
      ∧ (schedule_reconnect s).reconnect_attempt = s.reconnect_attempt + 1
      ∧ (6 ≤ s.reconnect_attempt → get_reconnect_delay s = 120))
    ∧ threeFailTrace.scheduled_delays = [5, 10, 20]
    ∧ threeFailTrace.reconnect_attempt = 3 := by
  refine ⟨⟨?_, ?_, ?_⟩, by decide, by decide⟩
  · rw [← get_reconnect_delay_eq_min]
    simp [schedule_reconnect, h]
  · simp [schedule_reconnect, h]
  · intro h6
    unfold get_reconnect_delay
    have hlen : reconnect_delays.length = 6 := by decide
    rw [if_pos (by omega)]
    rfl

/-- C1 witness: from the connected state (counter 0), the first scheduled
attempt uses delay 5 and leaves the counter at 1. -/
theorem c1_reconnect_delay_schedule_witness :
    (schedule_reconnect connectedState).reconnect_attempt = 1
    ∧ (schedule_reconnect connectedState).scheduled_delays = [5] := by
  have h := c1_reconnect_delay_schedule connectedState (by decide)
  refine ⟨h.1.2.1, ?_⟩
  rw [h.1.1]
  rfl

/-- C6: at most one reconnection task is outstanding: a scheduling request
while a task is pending or running is a no-op, scheduling is idempotent, and
scheduling twice in quick succession from a state with no outstanding task
records exactly one attempt (one scheduled delay), not two. -/
theorem c6_single_outstanding_task (s : CoordState) :
    (s.reconnect_task = some TaskStatus.running → schedule_reconnect s = s)
    ∧ schedule_reconnect (schedule_reconnect s) = schedule_reconnect s
    ∧ (s.reconnect_task ≠ some TaskStatus.running →
        (schedule_reconnect (schedule_reconnect s)).scheduled_delays
          = s.scheduled_delays ++ [get_reconnect_delay s]) := by
  refine ⟨fun h => by simp [schedule_reconnect, h], ?_, fun h => ?_⟩
  · by_cases h : s.reconnect_task = some TaskStatus.running <;>
      simp [schedule_reconnect, h]
  · simp [schedule_reconnect, h]

/-- C6 witness: scheduling twice from the connected state records exactly the
single delay 5. -/
theorem c6_single_outstanding_task_witness :
    schedule_reconnect (schedule_reconnect connectedState) = schedule_reconnect connectedState
    ∧ (schedule_reconnect (schedule_reconnect connectedState)).scheduled_delays = [5] := by
  have h := c6_single_outstanding_task connectedState
  refine ⟨h.2.1, ?_⟩
  rw [h.2.2 (by decide)]
  rfl

/-- C7, evaluated at the failing input: one connection-lost signal from the
connected state schedules attempt 1 (delay 5); when that attempt fails, the
except branch calls _schedule_reconnect while self._reconnect_task is the
still-running task, for which task.done() is false, so the call returns at the
already-scheduled guard: no new attempt is recorded (the history still holds
only the one delay), the task finishes done, and the coordinator is left
disconnected with nothing pending — contradicting the claim (and the code's own
log message) that every failed attempt schedules exactly one new attempt. -/
theorem c7_failed_attempt_reschedules_nothing :
    (run_reconnect_task false (handle_connection_lost connectedState)).scheduled_delays = [5]
    ∧ (run_reconnect_task false (handle_connection_lost connectedState)).reconnect_task
        = some TaskStatus.done
    ∧ (run_reconnect_task false (handle_connection_lost connectedState)).connected = false
    ∧ (run_reconnect_task false (handle_connection_lost connectedState)).reconnect_attempt
        = 1 := by
  decide

theorem schedule_reconnect_preserves (s : CoordState) :
    (schedule_reconnect s).connected = s.connected
    ∧ (schedule_reconnect s).client = s.client
    ∧ (schedule_reconnect s).monitor = s.monitor
    ∧ (schedule_reconnect s).reconnect_task = some TaskStatus.running := by
  unfold schedule_reconnect
  split
  · next heq => exact ⟨rfl, rfl, rfl, heq⟩
  · exact ⟨rfl, rfl, rfl, rfl⟩

theorem reconnect_after_disconnect_eq (s : CoordState) :
    reconnect_after_disconnect s
      = { s with monitor := none, client := none, connected := false } := by
  unfold reconnect_after_disconnect
  rw [async_disconnect_ok]

/-- C10: handling a connection-lost signal while connected (which only
schedules the backoff task) leaves is_connected() true, with the session and
monitor handles untouched, for the whole backoff delay; the connected flag
becomes false only when the scheduled task, after its sleep, performs its
disconnect step. -/
theorem c10_connected_until_task_disconnects (s : CoordState) (hc : s.connected = true) :
    is_connected (handle_connection_lost s) = true
    ∧ (handle_connection_lost s).client = s.client
    ∧ (handle_connection_lost s).monitor = s.monitor
    ∧ (handle_connection_lost s).reconnect_task = some TaskStatus.running
    ∧ (reconnect_after_disconnect (handle_connection_lost s)).connected = false := by
  have hp := schedule_reconnect_preserves s
  refine ⟨?_, hp.2.1, hp.2.2.1, hp.2.2.2, ?_⟩
  · rw [is_connected, handle_connection_lost, hp.1, hc]
  · rw [handle_connection_lost, reconnect_after_disconnect_eq]

/-- C10 witness: at the concrete connected state. -/
theorem c10_connected_until_task_disconnects_witness :
    is_connected (handle_connection_lost connectedState) = true
    ∧ (reconnect_after_disconnect (handle_connection_lost connectedState)).connected = false := by
  have h := c10_connected_until_task_disconnects connectedState (by rfl)
  exact ⟨h.1, h.2.2.2.2⟩

/-- C3 counterexample: from the connected state, when the external
client.disconnect() call raises during teardown, async_disconnect (which has no
try/except) propagates the exception instead of swallowing it, and the state it
leaves behind still has connected = true and the client handle set — refuting
the claim that teardown errors are swallowed and that the call always
terminates with connected = false and the handles cleared. -/
theorem c3_disconnect_counterexample :
    async_disconnect false true connectedState
      = Except.error { connectedState with monitor := none }
    ∧ ({ connectedState with monitor := none } : CoordState).connected = true
    ∧ ({ connectedState with monitor := none } : CoordState).client = some () := by
  exact ⟨rfl, rfl, rfl⟩

/-- C3 as amended: async_disconnect performs no error handling of its own — an
exception from a teardown call propagates to the caller (every raising run
comes from one of the two external teardown failures); when the external
teardown calls raise nothing, async_disconnect always terminates with
connected = false and the client and monitor handles cleared, and calling it
twice in a row is safe (the second call succeeds and changes nothing). -/
theorem c3_disconnect_amended (s : CoordState) :
    async_disconnect false false s
      = Except.ok { s with monitor := none, client := none, connected := false }
    ∧ (∀ t, async_disconnect false false s = Except.ok t →
        async_disconnect false false t = Except.ok t)
    ∧ (∀ mfail cfail t, async_disconnect mfail cfail s = Except.error t →
        mfail = true ∨ cfail = true) := by
  refine ⟨async_disconnect_ok s, ?_, ?_⟩
  · intro t ht
    rw [async_disconnect_ok] at ht
    injection ht with ht
    subst ht
    rw [async_disconnect_ok]
  · intro mfail cfail t ht
    cases mfail with
    | true => exact Or.inl rfl
    | false =>
      cases cfail with
      | true => exact Or.inr rfl
      | false =>
        rw [async_disconnect_ok] at ht
        exact absurd ht (by simp)

/-- C3 amended witness: a second disconnect after a clean disconnect from the
connected state succeeds and is a no-op. -/
theorem c3_disconnect_amended_witness :
    async_disconnect false false
        { connectedState with monitor := none, client := none, connected := false }
      = Except.ok { connectedState with monitor := none, client := none, connected := false } :=
  (c3_disconnect_amended connectedState).2.1
    { connectedState with monitor := none, client := none, connected := false } (by rfl)

theorem listRemove_not_mem {α : Type} [DecidableEq α] (xs : List α) (f : α)
    (h : f ∉ xs) : listRemove xs f = Except.error () := by
  induction xs with
  | nil => rfl
  | cons x xs ih =>
    have hx : ¬ x = f := fun he => h (he ▸ List.mem_cons_self x xs)
    have hm : f ∉ xs := fun hm => h (List.mem_cons_of_mem x hm)
    simp [listRemove, hx, ih hm]

theorem listRemove_append_self {α : Type} [DecidableEq α] (xs : List α) (f : α)
    (h : f ∉ xs) : listRemove (xs ++ [f]) f = Except.ok xs := by
  induction xs with
  | nil => simp [listRemove]
  | cons x xs ih =>
    have hx : ¬ x = f := fun he => h (he ▸ List.mem_cons_self x xs)
    have hm : f ∉ xs := fun hm => h (List.mem_cons_of_mem x hm)
    simp [listRemove, hx, ih hm]

theorem registry_register_then_unregister (m : List (Nat × List Listener)) (n : Nat)
    (f : Listener) (h : f ∉ (dictGet m n).getD []) :
    registry_unregister (registry_register m n f) n f
        = Except.ok (dictSet (registry_register m n f) n ((dictGet m n).getD []))
    ∧ (dictGet (dictSet (registry_register m n f) n ((dictGet m n).getD [])) n).getD []
        = (dictGet m n).getD []
    ∧ registry_unregister (dictSet (registry_register m n f) n ((dictGet m n).getD [])) n f
        = Except.error () := by
  have hget : dictGet (registry_register m n f) n = some ((dictGet m n).getD [] ++ [f]) := by
    simp [registry_register, dictGet, dictSet]
  refine ⟨?_, ?_, ?_⟩
  · simp [registry_unregister, hget, listRemove_append_self _ _ h]
  · simp [dictGet, dictSet]
  · simp [registry_unregister, dictGet, dictSet, listRemove_not_mem _ _ h]

/-- Writing back a kind's callback registry (the in-place mutation the
unregister closures perform on the corresponding dict field). -/
def setKindCallbacks (k : Kind) (s : CoordState) (m : List (Nat × List Listener)) :
    CoordState :=
  match k with
  | Kind.area => { s with area_callbacks := m }
  | Kind.zone => { s with zone_callbacks := m }
  | Kind.output => { s with output_callbacks := m }
  | Kind.trigger => { s with trigger_callbacks := m }

theorem kindCallbacks_register (k : Kind) (s : CoordState) (n : Nat) (f : Listener) :
    kindCallbacks k (register_callback k s n f) = registry_register (kindCallbacks k s) n f := by
  cases k <;> rfl

theorem kindCallbacks_set (k : Kind) (s : CoordState) (m : List (Nat × List Listener)) :
    kindCallbacks k (setKindCallbacks k s m) = m := by
  cases k <;> rfl

theorem unregister_callback_eq (k : Kind) (s : CoordState) (n : Nat) (f : Listener) :
    unregister_callback k s n f
      = match registry_unregister (kindCallbacks k s) n f with
        | Except.ok m => Except.ok (setKindCallbacks k s m)
        | Except.error e => Except.error e := by
  cases k <;> rfl

/-- C8 counterexample: register one zone callback, unregister it (succeeds),
then invoke the same unregister handle again: list.remove raises ValueError
because the callback is no longer present — refuting the claim that the second
invocation does not error. -/
theorem c8_unregister_counterexample :
    unregister_callback Kind.zone (register_callback Kind.zone initState 3 ⟨1, false⟩)
        3 ⟨1, false⟩
      = Except.ok { initState with zone_callbacks := [(3, []), (3, [⟨1, false⟩])] }
    ∧ unregister_callback Kind.zone
        { initState with zone_callbacks := [(3, []), (3, [⟨1, false⟩])] } 3 ⟨1, false⟩
      = Except.error () := by
  exact ⟨rfl, rfl⟩

/-- C8 as amended: for a callback not already registered for the entity,
invoking the unregister handle returned by registration removes exactly that
registration (the callback list returns to its pre-registration contents, so
the callback receives zero further invocations), but invoking the same handle
again once the callback is no longer present raises an error (list.remove's
ValueError): removal is not idempotent. -/
theorem c8_unregister_once_then_error (k : Kind) (s : CoordState) (n : Nat) (f : Listener)
    (h : f ∉ registered k s n) :
    ∃ t, unregister_callback k (register_callback k s n f) n f = Except.ok t
      ∧ registered k t n = registered k s n
      ∧ f ∉ registered k t n
      ∧ unregister_callback k t n f = Except.error () := by
  have h0 : f ∉ (dictGet (kindCallbacks k s) n).getD [] := h
  have hreg := registry_register_then_unregister (kindCallbacks k s) n f h0
  refine ⟨setKindCallbacks k (register_callback k s n f)
      (dictSet (registry_register (kindCallbacks k s) n f) n
        ((dictGet (kindCallbacks k s) n).getD [])), ?_, ?_, ?_, ?_⟩
  · rw [unregister_callback_eq, kindCallbacks_register, hreg.1]
  · rw [registered, kindCallbacks_set, hreg.2.1]
    rfl
  · rw [registered, kindCallbacks_set, hreg.2.1]
    exact h0
  · rw [unregister_callback_eq, kindCallbacks_set, hreg.2.2]

/-- C8 amended witness: concrete zone callback on zone 3 of a fresh
coordinator. -/
theorem c8_unregister_once_then_error_witness :
    ∃ t, unregister_callback Kind.zone (register_callback Kind.zone initState 3 ⟨1, false⟩)
        3 ⟨1, false⟩ = Except.ok t
      ∧ registered Kind.zone t 3 = registered Kind.zone initState 3
      ∧ (⟨1, false⟩ : Listener) ∉ registered Kind.zone t 3
      ∧ unregister_callback Kind.zone t 3 ⟨1, false⟩ = Except.error () :=
  c8_unregister_once_then_error Kind.zone initState 3 ⟨1, false⟩ (by decide)
